import Mathlib

/-!
# Verification of the UDF metadata reader (`read_udf.py`)

A shallow embedding of the structural-metadata pipeline of `read_udf.py`:
byte decoding, descriptor-tag validation, the volume-recognition scan,
sector-size detection, the volume-descriptor-sequence walk, partition-map
decoding, and extent resolution.

The byte image is modelled as a function `Nat → Nat` (byte value at an
absolute offset) together with a total size in bytes; `readBytes` models
`seek(pos); read(n)` including short reads at end of file.  Python
exceptions are modelled with `Except UdfError`; each distinct `raise`
site (and each runtime error the source can hit, such as `KeyError`,
`IndexError`, `NameError` on an unbound local, or `AttributeError` on a
missing attribute) gets its own error constructor.
-/

set_option maxHeartbeats 1000000
set_option maxRecDepth 100000

/-- The distinct failure modes of the source, one constructor per `raise`
site or runtime error. -/
inductive UdfError where
  /-- `BaseTag._assert_size`: "... requires {n} bytes, but buffer only has {m}". -/
  | truncated (need have_ : Nat)
  /-- `DescriptorTag.__init__`: "Tag Identifier was unknown" (identifier 0). -/
  | unknownTagIdentifier
  /-- `BaseTag._assert_checksum`: "Checksum was {got}, but {expected} was expected". -/
  | checksumMismatch (got expected : Nat)
  /-- `BaseTag._assert_reserve_space`: "Reserve space at {start} was not zero". -/
  | reservedNonZero (start : Nat)
  /-- `BaseTag._assert_tag_identifier`: "Expected Tag Identifier {e}, but was {g}". -/
  | unexpectedTagIdentifier (expected got : Nat)
  /-- `LogicalVolumeDescriptor.__init__`: "Logical Volume is not OSTA compliant". -/
  | notOstaCompliant
  /-- `get_partition_maps`: "Unexpected partition type {t}". -/
  | unknownPartitionMapType (t : Nat)
  /-- `Type1PartitionMap.__init__`: "... Map Type was {t} instead of 1". -/
  | badPartitionMapType (got expected : Nat)
  /-- `Type1PartitionMap.__init__`: "... Map Length was {n} instead of {size}". -/
  | badPartitionMapLength (got expected : Nat)
  /-- Python `KeyError`: `physical_partitions[partition_number]` with a missing key. -/
  | keyError (key : Nat)
  /-- Python `IndexError`: sequence subscript out of range. -/
  | indexError
  /-- Python `NameError`: local `partition_descriptor` read before any assignment. -/
  | nameErrorPartitionDescriptor
  /-- Python `AttributeError`: `logical_partition.content` does not exist. -/
  | attributeErrorContent
  /-- `get_sector_size`: "Could not get sector size.". -/
  | sectorSizeUndetectable
  /-- `go`: "Failed to get the required segments". -/
  | requiredDescriptorsMissing
  deriving DecidableEq, Repr

/-- `seek(pos); read(n)` on an image of `fsize` bytes: returns
`min n (fsize - pos)` bytes starting at `pos` (a short read near the end). -/
def readBytes (f : Nat → Nat) (fsize pos n : Nat) : List Nat :=
  (List.range (min n (fsize - pos))).map (fun k => f (pos + k))

/-- Subscript into a byte buffer.  Every use in the embedding is guarded by
the size assertion of the owning descriptor (or by an explicit bounds check
where the source has none), so the default value is never observed. -/
def byteAt (buffer : List Nat) (i : Nat) : Nat :=
  buffer.getD i 0

/-- Python slice `buffer[a : a + n]` (clamped at the end of the buffer). -/
def sliceAt (buffer : List Nat) (a n : Nat) : List Nat :=
  (buffer.drop a).take n

/-- `to_uint8`: `struct.unpack('B', byte)` — the byte value itself. -/
def to_uint8 (b : Nat) : Nat := b

/-- `to_uint16`: little-endian 16-bit read with the source's masks. -/
def to_uint16 (buffer : List Nat) (start : Nat) : Nat :=
  ((to_uint8 (byteAt buffer (start + 1)) <<< 8) &&& 0xFF00) |||
  ((to_uint8 (byteAt buffer (start + 0)) <<< 0) &&& 0x00FF)

/-- `to_uint32`: little-endian 32-bit read with the source's masks. -/
def to_uint32 (buffer : List Nat) (start : Nat) : Nat :=
  ((to_uint8 (byteAt buffer (start + 3)) <<< 24) &&& 0xFF000000) |||
  ((to_uint8 (byteAt buffer (start + 2)) <<< 16) &&& 0x00FF0000) |||
  ((to_uint8 (byteAt buffer (start + 1)) <<< 8) &&& 0x0000FF00) |||
  ((to_uint8 (byteAt buffer (start + 0)) <<< 0) &&& 0x000000FF)

/-- `BaseTag._assert_size`: fail when `len(buffer) - start < size`.
(Python's subtraction can go negative; truncated `Nat` subtraction gives the
same comparison outcome since `size` is always positive at every call site.) -/
def assertSize (size : Nat) (buffer : List Nat) (start : Nat) : Except UdfError Unit :=
  if buffer.length - start < size then
    .error (.truncated size (buffer.length - start))
  else
    .ok ()

/-- The `while checksum > 256: checksum -= 256` loop of
`BaseTag._assert_checksum`, with an explicit fuel argument that bounds the
iteration count (each pass subtracts 256, so `n` passes more than suffice).
Note the loop condition is `> 256`, not `>= 256`: a positive multiple of 256
is left at `256`, which is not a `uint8` value. -/
def truncLoop : Nat → Nat → Nat
  | 0, n => n
  | fuel + 1, n => if n > 256 then truncLoop fuel (n - 256) else n

/-- The "truncate int to uint8" step of `BaseTag._assert_checksum`. -/
def truncUint8 (n : Nat) : Nat :=
  truncLoop n n

/-- The checksum accumulation of `BaseTag._assert_checksum`: the sum of
bytes `0..15` of the tag, skipping byte 4 (`if i == 4: continue`). -/
def checksumSum (buffer : List Nat) (start : Nat) : Nat :=
  ((List.range 16).filter (fun i => i ≠ 4)).foldl
    (fun acc i => acc + to_uint8 (byteAt buffer (start + i))) 0

/-- `BaseTag._assert_checksum`. -/
def assertChecksum (buffer : List Nat) (start expected : Nat) : Except UdfError Unit :=
  let checksum := truncUint8 (checksumSum buffer start)
  if checksum = expected then .ok ()
  else .error (.checksumMismatch checksum expected)

/-- `BaseTag._assert_reserve_space`: every byte of
`buffer[start : start + length]` must be zero. -/
def assertReserveSpace (buffer : List Nat) (start length : Nat) : Except UdfError Unit :=
  if (sliceAt buffer start length).all (fun n => to_uint8 n = 0) then .ok ()
  else .error (.reservedNonZero start)

/-- The fields of a parsed `DescriptorTag`. -/
structure DescriptorTagData where
  tag_identifier : Nat
  descriptor_version : Nat
  tag_check_sum : Nat
  reserved : Nat
  tag_serial_number : Nat
  descriptor_crc : Nat
  descriptor_crc_length : Nat
  tag_location : Nat
  deriving DecidableEq, Repr

/-- `DescriptorTag.__init__`: size assertion, field reads, then the
identifier / checksum / reserved-byte validations, in source order. -/
def descriptorTag (buffer : List Nat) (start : Nat) : Except UdfError DescriptorTagData := do
  let _ ← assertSize 16 buffer start
  let t : DescriptorTagData := {
    tag_identifier := to_uint16 buffer (start + 0)
    descriptor_version := to_uint16 buffer (start + 2)
    tag_check_sum := to_uint8 (byteAt buffer (start + 4))
    reserved := to_uint8 (byteAt buffer (start + 5))
    tag_serial_number := to_uint16 buffer (start + 6)
    descriptor_crc := to_uint16 buffer (start + 8)
    descriptor_crc_length := to_uint16 buffer (start + 10)
    tag_location := to_uint32 buffer (start + 12) }
  if t.tag_identifier = 0 then
    .error .unknownTagIdentifier
  else do
    let _ ← assertChecksum buffer start t.tag_check_sum
    let _ ← assertReserveSpace buffer (start + 5) 1
    .ok t

/-- `to_dstring`: `raw = buffer[start : start + max_length]`, the first byte
is the length, the value is `raw[1 : 1 + length]`. -/
def to_dstring (buffer : List Nat) (start max_length : Nat) : List Nat :=
  let raw := sliceAt buffer start max_length
  let length := to_uint8 (byteAt raw 0)
  (raw.drop 1).take length

/-- The fields of a parsed `EntityID` (a 32-byte entity identifier). -/
structure EntityIDData where
  entity_id_type : Nat
  flags : Nat
  identifier : List Nat
  identifier_suffix : List Nat
  deriving DecidableEq, Repr

/-- `EntityID.__init__`: size assertion and field reads (the flags check in
the source is commented out). -/
def entityID (ty : Nat) (buffer : List Nat) (start : Nat) : Except UdfError EntityIDData := do
  let _ ← assertSize 32 buffer start
  .ok { entity_id_type := ty
        flags := to_uint8 (byteAt buffer (start + 0))
        identifier := sliceAt buffer (start + 1) 23
        identifier_suffix := sliceAt buffer (start + 24) 8 }

/-- The fields of a parsed `ExtentDescriptor`. -/
structure ExtentDescriptorData where
  extent_length : Nat
  extent_location : Nat
  deriving DecidableEq, Repr

/-- `ExtentDescriptor.__init__`. -/
def extentDescriptor (buffer : List Nat) (start : Nat) : Except UdfError ExtentDescriptorData := do
  let _ ← assertSize 8 buffer start
  .ok { extent_length := to_uint32 buffer start
        extent_location := to_uint32 buffer (start + 4) }

/-- The fields of a parsed `AnchorVolumeDescriptorPointer`. -/
structure AVDPData where
  descriptor_tag : DescriptorTagData
  main_volume_descriptor_sequence_extent : ExtentDescriptorData
  reserve_volume_descriptor_sequence_extent : ExtentDescriptorData
  deriving DecidableEq, Repr

/-- `AnchorVolumeDescriptorPointer.__init__` (always invoked with
`start = 0`, and its inner `DescriptorTag(buffer)` call likewise reads from
offset 0): size assertion, tag parse + identifier check, the two extents and
the 480-byte reserved-zero check. -/
def anchorVolumeDescriptorPointer (buffer : List Nat) : Except UdfError AVDPData := do
  let _ ← assertSize 512 buffer 0
  let tag ← descriptorTag buffer 0
  if tag.tag_identifier ≠ 2 then
    .error (.unexpectedTagIdentifier 2 tag.tag_identifier)
  else do
    let main ← extentDescriptor buffer 16
    let res ← extentDescriptor buffer 24
    let _ ← assertReserveSpace buffer 32 480
    .ok { descriptor_tag := tag
          main_volume_descriptor_sequence_extent := main
          reserve_volume_descriptor_sequence_extent := res }

/-- The fields of a parsed `PrimaryVolumeDescriptor` kept by the embedding
(every validation of the source constructor is performed; the scalar fields
retained are the ones that distinguish instances). -/
structure PVDData where
  descriptor_tag : DescriptorTagData
  volume_descriptor_sequence_number : Nat
  primary_volume_descriptor_number : Nat
  volume_identifier : List Nat
  volume_sequence_number : Nat
  application_identifier : EntityIDData
  implementation_identifier : EntityIDData
  deriving DecidableEq, Repr

/-- `PrimaryVolumeDescriptor.__init__` (always invoked with `start = 0`):
size assertion, tag parse + identifier check, field reads (the embedded
`ExtentDescriptor`/`EntityID` reads at offsets 328/336/344/388 are performed
in source order) and the 22-byte reserved-zero check at offset 490. -/
def primaryVolumeDescriptor (buffer : List Nat) : Except UdfError PVDData := do
  let _ ← assertSize 512 buffer 0
  let tag ← descriptorTag buffer 0
  if tag.tag_identifier ≠ 1 then
    .error (.unexpectedTagIdentifier 1 tag.tag_identifier)
  else do
    let _ ← extentDescriptor buffer 328
    let _ ← extentDescriptor buffer 336
    let app ← entityID 4 buffer 344
    let impl ← entityID 3 buffer 388
    let _ ← assertReserveSpace buffer 490 22
    .ok { descriptor_tag := tag
          volume_descriptor_sequence_number := to_uint32 buffer 16
          primary_volume_descriptor_number := to_uint32 buffer 20
          volume_identifier := to_dstring buffer 24 32
          volume_sequence_number := to_uint16 buffer 56
          application_identifier := app
          implementation_identifier := impl }

/-- The fields of a parsed `PartitionDescriptor` kept by the embedding. -/
structure PDData where
  descriptor_tag : DescriptorTagData
  volume_descriptor_sequence_number : Nat
  partition_flags : Nat
  partition_number : Nat
  partition_contents : EntityIDData
  access_type : Nat
  partition_starting_location : Nat
  partition_length : Nat
  implementation_identifier : EntityIDData
  deriving DecidableEq, Repr

/-- `PartitionDescriptor.__init__` (always invoked with `start = 0`):
size assertion, tag parse + identifier check, field reads and the 156-byte
reserved-zero check at offset 356. -/
def partitionDescriptor (buffer : List Nat) : Except UdfError PDData := do
  let _ ← assertSize 512 buffer 0
  let tag ← descriptorTag buffer 0
  if tag.tag_identifier ≠ 5 then
    .error (.unexpectedTagIdentifier 5 tag.tag_identifier)
  else do
    let contents ← entityID 2 buffer 24
    let impl ← entityID 3 buffer 196
    let _ ← assertReserveSpace buffer 356 156
    .ok { descriptor_tag := tag
          volume_descriptor_sequence_number := to_uint32 buffer 16
          partition_flags := to_uint16 buffer 20
          partition_number := to_uint16 buffer 22
          partition_contents := contents
          access_type := to_uint32 buffer 184
          partition_starting_location := to_uint32 buffer 188
          partition_length := to_uint32 buffer 192
          implementation_identifier := impl }

/-- Python substring containment (`pat in s`) on byte strings. -/
def containsSub (pat s : List Nat) : Bool :=
  match s with
  | [] => pat.isEmpty
  | _ :: rest => pat.isPrefixOf s || containsSub pat rest

/-- The byte string `"*OSTA UDF Compliant"`. -/
def ostaMarker : List Nat :=
  [42, 79, 83, 84, 65, 32, 85, 68, 70, 32, 67, 111, 109, 112, 108, 105, 97, 110, 116]

/-- The fields of a parsed `LogicalVolumeDescriptor` kept by the embedding. -/
structure LVDData where
  descriptor_tag : DescriptorTagData
  volume_descriptor_sequence_number : Nat
  logical_volume_identifier : List Nat
  logical_block_size : Nat
  domain_identifier : EntityIDData
  logical_volume_contents_use : List Nat
  map_table_length : Nat
  number_of_partition_maps : Nat
  implementation_identifier : EntityIDData
  integrity_sequence_extent : ExtentDescriptorData
  raw_partition_maps : List Nat
  deriving DecidableEq, Repr

/-- `LogicalVolumeDescriptor.__init__` (always invoked with `start = 0`):
size assertion, tag parse + identifier check, field reads, and the
`"*OSTA UDF Compliant" in domain_identifier.identifier` compliance check. -/
def logicalVolumeDescriptor (buffer : List Nat) : Except UdfError LVDData := do
  let _ ← assertSize 512 buffer 0
  let tag ← descriptorTag buffer 0
  if tag.tag_identifier ≠ 6 then
    .error (.unexpectedTagIdentifier 6 tag.tag_identifier)
  else do
    let domain ← entityID 1 buffer 216
    let impl ← entityID 3 buffer 272
    let integrity ← extentDescriptor buffer 432
    if ¬ containsSub ostaMarker domain.identifier then
      .error .notOstaCompliant
    else
      .ok { descriptor_tag := tag
            volume_descriptor_sequence_number := to_uint32 buffer 16
            logical_volume_identifier := to_dstring buffer 84 128
            logical_block_size := to_uint32 buffer 128
            domain_identifier := domain
            logical_volume_contents_use := sliceAt buffer 248 16
            map_table_length := to_uint32 buffer 264
            number_of_partition_maps := to_uint32 buffer 268
            implementation_identifier := impl
            integrity_sequence_extent := integrity
            raw_partition_maps := sliceAt buffer 440 72 }

/-- A parsed `TerminatingDescriptor`: the source constructor performs only
the 512-byte size assertion and stores no fields. -/
structure TDData where
  deriving DecidableEq, Repr

/-- `TerminatingDescriptor.__init__`. -/
def terminatingDescriptor (buffer : List Nat) : Except UdfError TDData := do
  let _ ← assertSize 512 buffer 0
  .ok {}

/-- The fields of a parsed `Type1PartitionMap`. -/
structure T1MapData where
  partition_map_type : Nat
  partition_map_length : Nat
  volume_sequence_number : Nat
  partition_number : Nat
  deriving DecidableEq, Repr

/-- `Type1PartitionMap.__init__`: size assertion (6 bytes), field reads,
then the type-byte check (`== 1`) and the length-byte check (`== size`,
i.e. `== 6`), in source order. -/
def type1PartitionMap (buffer : List Nat) (start : Nat) : Except UdfError T1MapData := do
  let _ ← assertSize 6 buffer start
  let m : T1MapData := {
    partition_map_type := to_uint8 (byteAt buffer (start + 0))
    partition_map_length := to_uint8 (byteAt buffer (start + 1))
    volume_sequence_number := to_uint16 buffer (start + 2)
    partition_number := to_uint16 buffer (start + 4) }
  if m.partition_map_type ≠ 1 then
    .error (.badPartitionMapType m.partition_map_type 1)
  else if m.partition_map_length ≠ 6 then
    .error (.badPartitionMapLength m.partition_map_length 6)
  else
    .ok m

/-- The loop of `LogicalVolumeDescriptor.get_partition_maps`, one call per
`for i in range(number_of_partition_maps)` iteration.  The source reads
`buffer[part_start]` with no bounds check (a Python `IndexError` when the
cursor runs past the raw map bytes), dispatches only on type 1
(`Type1PartitionMap`, whose `size` is 6, advancing the cursor by 6), and
raises "Unexpected partition type" on every other type byte — including 2:
`Type2PartitionMap` is never constructed by this loop. -/
def getPartitionMapsAux (buffer : List Nat) (part_start : Nat) : Nat → Except UdfError (List T1MapData)
  | 0 => .ok []
  | n + 1 =>
    if part_start < buffer.length then
      let partition_type := to_uint8 (byteAt buffer part_start)
      if partition_type = 1 then do
        let m ← type1PartitionMap buffer part_start
        let rest ← getPartitionMapsAux buffer (part_start + 6) n
        .ok (m :: rest)
      else
        .error (.unknownPartitionMapType partition_type)
    else
      .error .indexError

/-- `LogicalVolumeDescriptor.get_partition_maps` (the `partition_maps`
property). -/
def getPartitionMaps (lvd : LVDData) : Except UdfError (List T1MapData) :=
  getPartitionMapsAux lvd.raw_partition_maps 0 lvd.number_of_partition_maps

/-- The fields of a parsed `LogicalBlockAddress`. -/
structure LBAData where
  logical_block_number : Nat
  partition_reference_number : Nat
  deriving DecidableEq, Repr

/-- `LogicalBlockAddress.__init__`.  The size assertion honours `start`, but
the field reads use absolute offsets 0 and 4 of the buffer — the source
passes `start` only to the assertion (`to_uint32(buffer, 0)` and
`to_uint16(buffer, 4)`, not `start + ...`). -/
def logicalBlockAddress (buffer : List Nat) (start : Nat) : Except UdfError LBAData := do
  let _ ← assertSize 6 buffer start
  .ok { logical_block_number := to_uint32 buffer 0
        partition_reference_number := to_uint16 buffer 4 }

/-- The fields of a parsed `LongAllocationDescriptor`. -/
structure LongADData where
  extent_length : Nat
  extent_location : LBAData
  implementation_use : List Nat
  deriving DecidableEq, Repr

/-- `LongAllocationDescriptor.__init__` (always invoked with `start = 0`):
the embedded `LogicalBlockAddress` is constructed with `start = 4`. -/
def longAllocationDescriptor (buffer : List Nat) : Except UdfError LongADData := do
  let _ ← assertSize 16 buffer 0
  let loc ← logicalBlockAddress buffer 4
  .ok { extent_length := to_uint32 buffer 0
        extent_location := loc
        implementation_use := sliceAt buffer 10 6 }

/-- `LogicalVolumeDescriptor.get_file_set_descriptor_location` (the
`file_set_descriptor_location` property). -/
def fileSetDescriptorLocation (lvd : LVDData) : Except UdfError LongADData :=
  longAllocationDescriptor lvd.logical_volume_contents_use

/-- `PhysicalPartition.__init__` stores a byte start and a byte size. -/
structure PhysicalPartitionData where
  start : Nat
  size : Nat
  deriving DecidableEq, Repr

/-- `Type1Partition.__init__` stores the logical volume descriptor, the
partition map and the physical partition. -/
structure Type1PartitionData where
  logical_volume_descriptor : LVDData
  partition_map : T1MapData
  physical_partition : PhysicalPartitionData
  deriving DecidableEq, Repr

/-- `Type1Partition.get_logical_block_size` (the `logical_block_size`
property). -/
def Type1PartitionData.logical_block_size (p : Type1PartitionData) : Nat :=
  p.logical_volume_descriptor.logical_block_size

/-- `read_extent`: looks the logical partition up by
`extent.extent_location.partition_reference_number` (an `IndexError` when
out of range), computes
`start = logical_block_number * logical_block_size` — note: without adding
the physical partition's byte start — and then evaluates
`logical_partition.content.read(pos, extent.extent_length)`.
`Type1Partition` has no `content` attribute, so this access always raises
`AttributeError` (and `pos` is an undefined name besides). -/
def read_extent (logical_partitions : List Type1PartitionData) (extent : LongADData) :
    Except UdfError (List Nat) :=
  match logical_partitions.get? extent.extent_location.partition_reference_number with
  | none => .error .indexError
  | some logical_partition =>
    let _start := extent.extent_location.logical_block_number * logical_partition.logical_block_size
    .error .attributeErrorContent

/-- `HEADER_SIZE = 1024 * 32`. -/
def HEADER_SIZE : Nat := 1024 * 32

/-- `SECTOR_SIZE = 1024 * 2`. -/
def SECTOR_SIZE : Nat := 1024 * 2

/-- The byte string `"BEA01"`. -/
def BEA01 : List Nat := [66, 69, 65, 48, 49]

/-- The byte string `"NSR02"`. -/
def NSR02 : List Nat := [78, 83, 82, 48, 50]

/-- The byte string `"NSR03"`. -/
def NSR03 : List Nat := [78, 83, 82, 48, 51]

/-- The byte string `"TEA01"`. -/
def TEA01 : List Nat := [84, 69, 65, 48, 49]

/-- The byte string `"BOOT2"`. -/
def BOOT2 : List Nat := [66, 79, 79, 84, 50]

/-- The byte string `"CD001"`. -/
def CD001 : List Nat := [67, 68, 48, 48, 49]

/-- The byte string `"CDW02"`. -/
def CDW02 : List Nat := [67, 68, 87, 48, 50]

/-- The five-byte standard identifier `buffer[1:6]` of the sector starting
at byte offset `pos`. -/
def identAt (f : Nat → Nat) (pos : Nat) : List Nat :=
  [f (pos + 1), f (pos + 2), f (pos + 3), f (pos + 4), f (pos + 5)]

/-- The `while is_valid` loop of `is_valid_udf`, indexed by the number `n`
of full `SECTOR_SIZE`-byte reads still available (`n = 0` is the short read
that breaks the loop; each full read advances the file position by exactly
`SECTOR_SIZE`, so `n` decreases by one per iteration).  The three booleans
are `has_bea`, `has_vsd`, `has_tea`; a sector whose identifier matches none
of the known strings sets `is_valid = False`, ending the loop.  The final
value is `has_bea and has_vsd and has_tea`.  (The sector's structure type,
byte 0, and structure version, byte 6, are read but never used.) -/
def ivuLoop (f : Nat → Nat) : Nat → Nat → Bool → Bool → Bool → Bool
  | 0, _, has_bea, has_vsd, has_tea => has_bea && has_vsd && has_tea
  | n + 1, pos, has_bea, has_vsd, has_tea =>
    let standard_identifier := identAt f pos
    if standard_identifier = BEA01 then
      ivuLoop f n (pos + SECTOR_SIZE) true has_vsd has_tea
    else if standard_identifier = NSR02 ∨ standard_identifier = NSR03 then
      ivuLoop f n (pos + SECTOR_SIZE) has_bea true has_tea
    else if standard_identifier = TEA01 then
      ivuLoop f n (pos + SECTOR_SIZE) has_bea has_vsd true
    else if standard_identifier = BOOT2 ∨ standard_identifier = CD001 ∨
        standard_identifier = CDW02 then
      ivuLoop f n (pos + SECTOR_SIZE) has_bea has_vsd has_tea
    else
      has_bea && has_vsd && has_tea

/-- `is_valid_udf`: false when the image cannot hold the 32 KiB header plus
one sector; otherwise scan successive `SECTOR_SIZE`-byte sectors from byte
offset `HEADER_SIZE`.  `(fsize - HEADER_SIZE) / SECTOR_SIZE` is the number
of full sectors available, after which the read comes up short and the loop
breaks. -/
def is_valid_udf (f : Nat → Nat) (fsize : Nat) : Bool :=
  if fsize < HEADER_SIZE + SECTOR_SIZE then
    false
  else
    ivuLoop f ((fsize - HEADER_SIZE) / SECTOR_SIZE) HEADER_SIZE false false false

/-- The candidate loop of `get_sector_size` over the remaining candidate
list: skip a candidate when `file_size < 257 * size`, otherwise read 16
bytes at `256 * size` and parse a `DescriptorTag` (any validation failure
skips the candidate — the bare `except`), then skip unless
`tag_location == 256` and the identifier is AnchorVolumeDescriptorPointer
(2).  The first surviving candidate is returned; an exhausted list raises
"Could not get sector size.". -/
def getSectorSizeAux (f : Nat → Nat) (file_size : Nat) : List Nat → Except UdfError Nat
  | [] => .error .sectorSizeUndetectable
  | size :: rest =>
    if file_size < 257 * size then
      getSectorSizeAux f file_size rest
    else
      match descriptorTag (readBytes f file_size (256 * size) 16) 0 with
      | .error _ => getSectorSizeAux f file_size rest
      | .ok tag =>
        if tag.tag_location ≠ 256 then
          getSectorSizeAux f file_size rest
        else if tag.tag_identifier ≠ 2 then
          getSectorSizeAux f file_size rest
        else
          .ok size

/-- `get_sector_size`: the candidates are tried in the order
`[4096, 2048, 1024, 512]`. -/
def get_sector_size (f : Nat → Nat) (file_size : Nat) : Except UdfError Nat :=
  getSectorSizeAux f file_size [4096, 2048, 1024, 512]

/-- The mutable locals of `go`'s sector loop.  `desc` is the local that
receives each parsed `PrimaryVolumeDescriptor`, `anchor` each parsed
`AnchorVolumeDescriptorPointer`.  `partition_descriptor` is never
initialised before the loop, so `pd = none` models the *unbound* local
(reading it raises `NameError`), while `logical_volume_descriptor` and
`terminating_descriptor` start as Python `None`.  `physical_partitions` is
the dict keyed by `partition_number`: insertion prepends and lookup takes
the first match, which models overwrite-on-duplicate-key. -/
structure WalkState where
  desc : Option PVDData := none
  anchor : Option AVDPData := none
  pd : Option PDData := none
  lvd : Option LVDData := none
  td : Option TDData := none
  physical_partitions : List (Nat × PhysicalPartitionData) := []
  deriving DecidableEq, Repr

/-- The initial state of `go`'s sector loop. -/
def initWalkState : WalkState := {}

/-- The loop-ending test
`if logical_volume_descriptor and partition_descriptor and terminating_descriptor`:
Python's `and` short-circuits, so when `logical_volume_descriptor` is still
`None` the unbound `partition_descriptor` is never evaluated; once an LVD is
bound, evaluating a still-unbound `partition_descriptor` raises `NameError`.
All three are objects (truthy) once bound. -/
def breakCheck (st : WalkState) : Except UdfError Bool :=
  match st.lvd with
  | none => .ok false
  | some _ =>
    match st.pd with
    | none => .error .nameErrorPartitionDescriptor
    | some _ => .ok st.td.isSome

/-- The tag dispatch of `go`'s sector loop body, applied to the 512-byte
re-read of the sector.  Identifiers 3, 4, 7 and 9 are commented-out passes
in the source; an identifier that matches no branch and is nonzero only
prints "Unexpected Descriptor Tag" (and identifier 0 cannot reach here,
since `DescriptorTag` rejects it).  A constructor exception in any branch
is not caught and aborts the whole of `go`. -/
def dispatchTag (sector_size : Nat) (st : WalkState) (tag : DescriptorTagData)
    (buffer : List Nat) : Except UdfError WalkState :=
  if tag.tag_identifier = 1 then do
    let d ← primaryVolumeDescriptor buffer
    .ok { st with desc := some d }
  else if tag.tag_identifier = 2 then do
    let a ← anchorVolumeDescriptorPointer buffer
    .ok { st with anchor := some a }
  else if tag.tag_identifier = 5 then do
    let partition_descriptor ← partitionDescriptor buffer
    let start := partition_descriptor.partition_starting_location * sector_size
    let length := partition_descriptor.partition_length * sector_size
    let physical_partition : PhysicalPartitionData := { start := start, size := length }
    .ok { st with
          pd := some partition_descriptor
          physical_partitions :=
            (partition_descriptor.partition_number, physical_partition) ::
              st.physical_partitions }
  else if tag.tag_identifier = 6 then do
    let d ← logicalVolumeDescriptor buffer
    .ok { st with lvd := some d }
  else if tag.tag_identifier = 8 then do
    let d ← terminatingDescriptor buffer
    .ok { st with td := some d }
  else
    .ok st

/-- The sector loop of `go` (`for sector in range(pvd_sector, 257)`), over
the list of remaining sector numbers.  Each iteration reads 16 bytes at the
sector start; a failed tag validation is `continue` (state unchanged, and
the loop-ending test is *skipped*).  On a valid tag the sector start is
re-read as 512 bytes and dispatched, then the loop-ending test runs and a
`True` result breaks.  The returned number counts the iterations executed,
so a result `(st, k)` with `k` smaller than the list length is an early
break. -/
def walkLoop (f : Nat → Nat) (fsize sector_size : Nat) :
    WalkState → List Nat → Except UdfError (WalkState × Nat)
  | st, [] => .ok (st, 0)
  | st, sector :: rest =>
    match descriptorTag (readBytes f fsize (sector * sector_size) 16) 0 with
    | .error _ => do
      let r ← walkLoop f fsize sector_size st rest
      .ok (r.1, r.2 + 1)
    | .ok tag => do
      let buffer := readBytes f fsize (sector * sector_size) 512
      let st9 ← dispatchTag sector_size st tag buffer
      let br ← breakCheck st9
      if br then
        .ok (st9, 1)
      else do
        let r ← walkLoop f fsize sector_size st9 rest
        .ok (r.1, r.2 + 1)

/-- The check after the loop:
`if not logical_volume_descriptor or not partition_descriptor or not terminating_descriptor: raise`.
Python's `or` short-circuits, so a missing LVD raises the "Failed to get
the required segments" exception before the unbound `partition_descriptor`
could raise `NameError`. -/
def finalCheck (st : WalkState) : Except UdfError Unit :=
  match st.lvd with
  | none => .error .requiredDescriptorsMissing
  | some _ =>
    match st.pd with
    | none => .error .nameErrorPartitionDescriptor
    | some _ =>
      if st.td.isSome then .ok () else .error .requiredDescriptorsMissing

/-- Lines 512–575 of `go`: the volume-descriptor-sequence walk from
`pvd_sector` up to (not including) sector 257, followed by the
required-segments check. -/
def walkVDS (f : Nat → Nat) (fsize sector_size pvd_sector : Nat) :
    Except UdfError (WalkState × Nat) := do
  let r ← walkLoop f fsize sector_size initWalkState
    (List.range' pvd_sector (257 - pvd_sector))
  let _ ← finalCheck r.1
  .ok r

/-- Lines 588–597 of `go`: build the `logical_partitions` list from the
decoded partition maps.  Every element produced by `get_partition_maps` is
a `Type1PartitionMap` (the loop raises on any other type byte), so the
`isinstance(map, Type2PartitionMap)` branch with its `NotImplementedError`
is unreachable.  A partition number absent from `physical_partitions`
raises `KeyError`. -/
def buildLogicalPartitions (lvd : LVDData) (phys : List (Nat × PhysicalPartitionData)) :
    List T1MapData → Except UdfError (List Type1PartitionData)
  | [] => .ok []
  | m :: rest =>
    match phys.lookup m.partition_number with
    | none => .error (.keyError m.partition_number)
    | some physical_Partition => do
      let lps ← buildLogicalPartitions lvd phys rest
      .ok ({ logical_volume_descriptor := lvd
             partition_map := m
             physical_partition := physical_Partition } :: lps)

/-- How a call to `go` can end.  `finished` would be a normal return after
`read_extent` produced data; the source never reaches it (and even then
`go` returns `None`), but the constructor keeps the outcome type honest. -/
inductive GoOutcome where
  /-- `go` returned `None` with no exception raised. -/
  | silentNone
  /-- `go` called `exit(code)`. -/
  | exited (code : Nat)
  /-- an exception propagated out of `go`. -/
  | failed (e : UdfError)
  /-- unreachable: a normal return carrying data. -/
  | finished (buf : List Nat)
  deriving DecidableEq, Repr

/-- `go`: the early `return` (silent `None`) when
`file_size < 257 * sector_size`; the 512-byte read of sector 256 and its
tag (`exit(1)` when the identifier is not AnchorVolumeDescriptorPointer);
the AVDP parse; the walk from the main extent location; partition-map
decoding and `logical_partitions` construction; and `read_extent` on the
file-set-descriptor location.  (Line 599 evaluates the
`file_set_descriptor_location` property and discards it; line 600 evaluates
it again — the property is deterministic, so one evaluation is faithful.)
After `ext_buffer = read_extent(...)` the function body ends, returning
`None`. -/
def goRun (f : Nat → Nat) (file_size sector_size : Nat) : GoOutcome :=
  if file_size < 257 * sector_size then
    .silentNone
  else
    let buffer := readBytes f file_size (256 * sector_size) 512
    match descriptorTag (sliceAt buffer 0 16) 0 with
    | .error e => .failed e
    | .ok tag =>
      if tag.tag_identifier ≠ 2 then
        .exited 1
      else
        match anchorVolumeDescriptorPointer buffer with
        | .error e => .failed e
        | .ok avdp =>
          let pvd_sector := avdp.main_volume_descriptor_sequence_extent.extent_location
          match walkVDS f file_size sector_size pvd_sector with
          | .error e => .failed e
          | .ok (st, _) =>
            match st.lvd with
            | none => .failed .requiredDescriptorsMissing
            | some logical_volume_descriptor =>
              match getPartitionMaps logical_volume_descriptor with
              | .error e => .failed e
              | .ok maps =>
                match buildLogicalPartitions logical_volume_descriptor
                    st.physical_partitions maps with
                | .error e => .failed e
                | .ok logical_partitions =>
                  match fileSetDescriptorLocation logical_volume_descriptor with
                  | .error e => .failed e
                  | .ok extent =>
                    match read_extent logical_partitions extent with
                    | .error e => .failed e
                    | .ok ext_buffer => .finished ext_buffer

/-- Build a concrete byte image from an association list of
(absolute offset, byte value) pairs; unlisted offsets read as zero. -/
def imageOf (assocs : List (Nat × Nat)) : Nat → Nat :=
  fun i => (assocs.lookup i).getD 0

/-- A 16-byte tag header whose byte sum (excluding byte 4) is exactly 256
and whose stored checksum byte is 0: bytes 0 and 1 are 255 and 1, byte 4
(the stored checksum) is 0, everything else is 0. -/
def exChkBuf : List Nat := [255, 1, 0, 0, 0, 0, 0, 0, 0, 0, 0, 0, 0, 0, 0, 0]

/-- The value the `while checksum > 256` loop actually computes: it agrees
with `n % 256` except at positive multiples of 256, which it maps to 256
instead of 0. -/
theorem truncUint8_eq (n : Nat) :
    truncUint8 n = if n % 256 = 0 ∧ 0 < n then 256 else n % 256 := by
  have key : ∀ fuel n, n ≤ 256 * fuel + 256 →
      truncLoop fuel n = if n % 256 = 0 ∧ 0 < n then 256 else n % 256 := by
    intro fuel
    induction fuel with
    | zero =>
      intro n hn
      interval_cases n <;> simp [truncLoop]
    | succ k ih =>
      intro n hn
      by_cases h : n > 256
      · have h1 : truncLoop (k + 1) n = truncLoop k (n - 256) := by
          simp [truncLoop, h]
        rw [h1, ih (n - 256) (by omega)]
        have h2 : (n - 256) % 256 = n % 256 := by
          omega
        rw [h2]
        have h3 : 0 < n - 256 := by omega
        have h4 : 0 < n := by omega
        simp [h3, h4]
      · have h1 : truncLoop (k + 1) n = n := by
          simp [truncLoop, h]
        rw [h1]
        have : n ≤ 256 := by omega
        interval_cases n <;> simp
  unfold truncUint8
  exact key n n (by omega)

/-- Bind on a successful `Except` computation reduces to the continuation. -/
@[simp] theorem exceptOkBind {ε : Type u} {α β : Type v} (a : α) (f : α → Except ε β) :
    (Except.ok a >>= f : Except ε β) = f a := rfl

/-- Bind on a failed `Except` computation short-circuits. -/
@[simp] theorem exceptErrorBind {ε : Type u} {α β : Type v} (e : ε) (f : α → Except ε β) :
    (Except.error e >>= f : Except ε β) = Except.error e := rfl

/-- Claim C2 (refuted — code bug): the validator is supposed to reduce the
byte sum modulo 256 ("Truncate int to uint8", says the source comment), but
its `while checksum > 256` loop stops at 256.  On `exChkBuf` the sum of
bytes 0..15 excluding byte 4 is exactly 256, so the 8-bit truncation is 0
and equals the stored checksum byte — the claim says validation succeeds —
yet the code computes 256 and raises the checksum mismatch. -/
theorem claim_C2_checksum_bug :
    descriptorTag exChkBuf 0 = .error (.checksumMismatch 256 0) ∧
    checksumSum exChkBuf 0 % 256 = to_uint8 (byteAt exChkBuf 4) ∧
    truncUint8 (checksumSum exChkBuf 0) = 256 := by
  refine ⟨rfl, by decide, by decide⟩

/-- Claim C10 (confirmed): a type-1 partition-map record parses only if its
length byte equals 6: every successful parse has length byte 6, any record
whose length byte differs from 6 is rejected, and when the buffer holds the
6 record bytes and the type byte is 1 the rejection is specifically the
map-length error. -/
theorem claim_C10_type1_map_length :
    (∀ buffer start m, type1PartitionMap buffer start = .ok m →
      m.partition_map_length = 6 ∧ to_uint8 (byteAt buffer (start + 1)) = 6) ∧
    (∀ buffer start, to_uint8 (byteAt buffer (start + 1)) ≠ 6 →
      (type1PartitionMap buffer start).isOk = false) ∧
    (∀ buffer start, ¬ buffer.length - start < 6 →
      to_uint8 (byteAt buffer start) = 1 →
      to_uint8 (byteAt buffer (start + 1)) ≠ 6 →
      type1PartitionMap buffer start =
        .error (.badPartitionMapLength (to_uint8 (byteAt buffer (start + 1))) 6)) := by
  refine ⟨?_, ?_, ?_⟩
  · intro buffer start m h
    unfold type1PartitionMap assertSize at h
    by_cases hs : buffer.length - start < 6
    · simp [hs] at h
    · by_cases ht : to_uint8 (byteAt buffer start) = 1
      · by_cases hl : to_uint8 (byteAt buffer (start + 1)) = 6
        · simp [hs, ht, hl] at h
          rw [← h]
          exact ⟨by simp [hl], hl⟩
        · simp [hs, ht, hl] at h
      · simp [hs, ht] at h
  · intro buffer start hl
    unfold type1PartitionMap assertSize
    by_cases hs : buffer.length - start < 6
    · simp [hs, Except.isOk, Except.toBool]
    · by_cases ht : to_uint8 (byteAt buffer start) = 1
      · simp [hs, ht, hl, Except.isOk, Except.toBool]
      · simp [hs, ht, Except.isOk, Except.toBool]
  · intro buffer start hs ht hl
    unfold type1PartitionMap assertSize
    simp [hs, ht, hl]

/-- Witness for C10: the record `[1, 5, 0, 0, 0, 0]` has type byte 1 and
length byte 5, and is rejected with the map-length error. -/
theorem claim_C10_witness :
    type1PartitionMap [1, 5, 0, 0, 0, 0] 0 = .error (.badPartitionMapLength 5 6) :=
  claim_C10_type1_map_length.2.2 [1, 5, 0, 0, 0, 0] 0 (by decide) (by decide) (by decide)

/-- Declarative acceptance of the 16-byte probe read at `256 * size`: the
descriptor tag validates, claims `tag_location` 256, and is an
AnchorVolumeDescriptorPointer. -/
def tagAccepts (f : Nat → Nat) (file_size size : Nat) : Bool :=
  match descriptorTag (readBytes f file_size (256 * size) 16) 0 with
  | .error _ => false
  | .ok tag => decide (tag.tag_location = 256) && decide (tag.tag_identifier = 2)

/-- Declarative acceptance of a sector-size candidate: the image is large
enough for 257 sectors of that size and the probe tag is accepted. -/
def acceptsCandidate (f : Nat → Nat) (file_size size : Nat) : Bool :=
  decide (257 * size ≤ file_size) && tagAccepts f file_size size

/-- Unfolding equation for the candidate loop on a nonempty list. -/
theorem getSectorSizeAux_cons (f : Nat → Nat) (file_size s : Nat) (rest : List Nat) :
    getSectorSizeAux f file_size (s :: rest) =
      if file_size < 257 * s then getSectorSizeAux f file_size rest
      else
        match descriptorTag (readBytes f file_size (256 * s) 16) 0 with
        | .error _ => getSectorSizeAux f file_size rest
        | .ok tag =>
          if tag.tag_location ≠ 256 then getSectorSizeAux f file_size rest
          else if tag.tag_identifier ≠ 2 then getSectorSizeAux f file_size rest
          else .ok s := rfl

/-- The candidate loop returns the first list element accepted by
`acceptsCandidate`, or the undetectable-size error when none is. -/
theorem getSectorSizeAux_eq_find (f : Nat → Nat) (file_size : Nat) :
    ∀ l : List Nat, getSectorSizeAux f file_size l =
      match l.find? (acceptsCandidate f file_size) with
      | some s => .ok s
      | none => .error .sectorSizeUndetectable := by
  intro l
  induction l with
  | nil => rfl
  | cons s rest ih =>
    rw [getSectorSizeAux_cons, List.find?_cons]
    by_cases hsz : file_size < 257 * s
    · have ha : acceptsCandidate f file_size s = false := by
        unfold acceptsCandidate
        simp
        omega
      rw [ha, if_pos hsz, ih]
    · rcases hdt : descriptorTag (readBytes f file_size (256 * s) 16) 0 with e | tag
      · have ha : acceptsCandidate f file_size s = false := by
          unfold acceptsCandidate tagAccepts
          rw [hdt]
          simp
        rw [ha, if_neg hsz]
        exact ih
      · by_cases hloc : tag.tag_location = 256
        · by_cases hid : tag.tag_identifier = 2
          · have ha : acceptsCandidate f file_size s = true := by
              unfold acceptsCandidate tagAccepts
              rw [hdt]
              simp [hloc, hid]
              omega
            rw [ha, if_neg hsz]
            simp [hloc, hid]
          · have ha : acceptsCandidate f file_size s = false := by
              unfold acceptsCandidate tagAccepts
              rw [hdt]
              simp [hid]
            rw [ha, if_neg hsz]
            simpa [hloc, hid] using ih
        · have ha : acceptsCandidate f file_size s = false := by
            unfold acceptsCandidate tagAccepts
            rw [hdt]
            simp [hloc]
          rw [ha, if_neg hsz]
          simpa [hloc] using ih

/-- A synthetic image of 257 sectors of 4096 bytes whose only valid
descriptor tag is an AnchorVolumeDescriptorPointer header at byte offset
`256 * 2048 = 524288` (identifier 2, version 3, checksum 6, `tag_location`
256); the 16 bytes at `256 * 4096 = 1048576` are all zero, so the 4096
probe fails tag validation. -/
def exImg1 : Nat → Nat :=
  imageOf [(524288, 2), (524290, 3), (524292, 6), (524301, 1)]

/-- Claim C1 (confirmed): `get_sector_size` tries 4096, 2048, 1024, 512 in
that order and returns the first candidate `s` with `257 * s ≤ file_size`
whose 16-byte probe at `256 * s` validates as a descriptor tag with
`tag_location = 256` and the AnchorVolumeDescriptorPointer identifier,
failing with the undetectable-size error when no candidate is accepted;
on the synthetic image with a valid AVDP header only at `256 * 2048`, the
4096 candidate is probed and rejected and 2048 is returned. -/
theorem claim_C1_sector_size_detection :
    (∀ (f : Nat → Nat) (file_size : Nat),
      get_sector_size f file_size =
        match [4096, 2048, 1024, 512].find? (acceptsCandidate f file_size) with
        | some s => .ok s
        | none => .error .sectorSizeUndetectable) ∧
    get_sector_size exImg1 1052672 = .ok 2048 ∧
    acceptsCandidate exImg1 1052672 4096 = false ∧
    acceptsCandidate exImg1 1052672 2048 = true := by
  refine ⟨fun f file_size => getSectorSizeAux_eq_find f file_size _, ?_, ?_, ?_⟩
  · rfl
  · rfl
  · rfl

/-- Classification of a volume-recognition sector by its standard
identifier. -/
inductive Marker where
  | bea
  | nsr
  | tea
  | benign
  | invalid
  deriving DecidableEq, Repr

/-- The class of a five-byte standard identifier, mirroring the identifier
tests of `is_valid_udf`. -/
def classifyIdent (ident : List Nat) : Marker :=
  if ident = BEA01 then .bea
  else if ident = NSR02 ∨ ident = NSR03 then .nsr
  else if ident = TEA01 then .tea
  else if ident = BOOT2 ∨ ident = CD001 ∨ ident = CDW02 then .benign
  else .invalid

/-- The classes of `n` consecutive sectors starting at byte offset `pos`
(a description of the image, independent of the scan's control flow). -/
def sectorClasses (f : Nat → Nat) : Nat → Nat → List Marker
  | 0, _ => []
  | n + 1, pos => classifyIdent (identAt f pos) :: sectorClasses f n (pos + SECTOR_SIZE)

/-- The classes of the sectors the scan actually observes: the full sectors
of the image, cut off at the first invalid identifier (which halts the
scan). -/
def observedClasses (f : Nat → Nat) (fsize : Nat) : List Marker :=
  (sectorClasses f ((fsize - HEADER_SIZE) / SECTOR_SIZE) HEADER_SIZE).takeWhile
    (fun m => m ≠ .invalid)

/-- Unfolding equation for the scan loop when a full sector is available. -/
theorem ivuLoop_succ (f : Nat → Nat) (n pos : Nat) (has_bea has_vsd has_tea : Bool) :
    ivuLoop f (n + 1) pos has_bea has_vsd has_tea =
      (if identAt f pos = BEA01 then
        ivuLoop f n (pos + SECTOR_SIZE) true has_vsd has_tea
      else if identAt f pos = NSR02 ∨ identAt f pos = NSR03 then
        ivuLoop f n (pos + SECTOR_SIZE) has_bea true has_tea
      else if identAt f pos = TEA01 then
        ivuLoop f n (pos + SECTOR_SIZE) has_bea has_vsd true
      else if identAt f pos = BOOT2 ∨ identAt f pos = CD001 ∨
          identAt f pos = CDW02 then
        ivuLoop f n (pos + SECTOR_SIZE) has_bea has_vsd has_tea
      else
        has_bea && has_vsd && has_tea) := rfl

/-- The scan loop computes exactly "each required marker was already seen,
or occurs among the sectors before the first invalid one". -/
theorem ivuLoop_eq_observed (f : Nat → Nat) :
    ∀ (n pos : Nat) (has_bea has_vsd has_tea : Bool),
      ivuLoop f n pos has_bea has_vsd has_tea =
        ((has_bea || ((sectorClasses f n pos).takeWhile (fun m => m ≠ .invalid)).contains .bea) &&
         (has_vsd || ((sectorClasses f n pos).takeWhile (fun m => m ≠ .invalid)).contains .nsr) &&
         (has_tea || ((sectorClasses f n pos).takeWhile (fun m => m ≠ .invalid)).contains .tea)) := by
  intro n
  induction n with
  | zero =>
    intro pos has_bea has_vsd has_tea
    simp [ivuLoop, sectorClasses]
  | succ k ih =>
    intro pos has_bea has_vsd has_tea
    rw [show sectorClasses f (k + 1) pos =
      classifyIdent (identAt f pos) :: sectorClasses f k (pos + SECTOR_SIZE) from rfl]
    rw [ivuLoop_succ]
    by_cases h1 : identAt f pos = BEA01
    · have hc : classifyIdent (identAt f pos) = Marker.bea := by
        unfold classifyIdent
        rw [if_pos h1]
      rw [if_pos h1, ih, hc]
      simp [List.takeWhile_cons]
    · by_cases h2 : identAt f pos = NSR02 ∨ identAt f pos = NSR03
      · have hc : classifyIdent (identAt f pos) = Marker.nsr := by
          unfold classifyIdent
          rw [if_neg h1, if_pos h2]
        rw [if_neg h1, if_pos h2, ih, hc]
        simp [List.takeWhile_cons]
      · by_cases h3 : identAt f pos = TEA01
        · have hc : classifyIdent (identAt f pos) = Marker.tea := by
            unfold classifyIdent
            rw [if_neg h1, if_neg h2, if_pos h3]
          rw [if_neg h1, if_neg h2, if_pos h3, ih, hc]
          simp [List.takeWhile_cons]
        · by_cases h4 : identAt f pos = BOOT2 ∨ identAt f pos = CD001 ∨
            identAt f pos = CDW02
          · have hc : classifyIdent (identAt f pos) = Marker.benign := by
              unfold classifyIdent
              rw [if_neg h1, if_neg h2, if_neg h3, if_pos h4]
            rw [if_neg h1, if_neg h2, if_neg h3, if_pos h4, ih, hc]
            simp [List.takeWhile_cons]
          · have hc : classifyIdent (identAt f pos) = Marker.invalid := by
              unfold classifyIdent
              rw [if_neg h1, if_neg h2, if_neg h3, if_neg h4]
            rw [if_neg h1, if_neg h2, if_neg h3, if_neg h4, hc]
            simp [List.takeWhile_cons]

/-- Claim C8 (confirmed): the volume-recognition scan returns true exactly
when the image holds the 32 KiB header plus at least one full 2048-byte
sector and each of the three required markers — BEA01, an NSR02/NSR03
marker, and TEA01 — occurs among the scanned sectors before the first
unrecognized identifier (BOOT2/CD001/CDW02 sectors pass through as
benign); in particular every image smaller than 32768 + 2048 bytes yields
false. -/
theorem claim_C8_volume_recognition_scan :
    ∀ (f : Nat → Nat) (fsize : Nat),
      is_valid_udf f fsize =
        (decide (HEADER_SIZE + SECTOR_SIZE ≤ fsize) &&
         ((observedClasses f fsize).contains .bea &&
          (observedClasses f fsize).contains .nsr &&
          (observedClasses f fsize).contains .tea)) := by
  intro f fsize
  unfold is_valid_udf observedClasses
  by_cases h : fsize < HEADER_SIZE + SECTOR_SIZE
  · have hd : decide (HEADER_SIZE + SECTOR_SIZE ≤ fsize) = false := by
      simp
      omega
    simp [h, hd]
  · have hd : decide (HEADER_SIZE + SECTOR_SIZE ≤ fsize) = true := by
      simp
      omega
    rw [if_neg h, ivuLoop_eq_observed, hd]
    simp [Bool.and_assoc]

/-- The loop-ending condition as a boolean over the state: all three of the
logical volume descriptor, the partition descriptor and the terminating
descriptor have been captured.  (The primary volume descriptor, local
`desc`, is *not* part of the condition.) -/
def threeB (st : WalkState) : Bool :=
  st.lvd.isSome && st.pd.isSome && st.td.isSome

/-- Unfolding equation for the sector loop on a nonempty sector list. -/
theorem walkLoop_cons (f : Nat → Nat) (fsize sector_size : Nat) (st : WalkState)
    (sector : Nat) (rest : List Nat) :
    walkLoop f fsize sector_size st (sector :: rest) =
      (match descriptorTag (readBytes f fsize (sector * sector_size) 16) 0 with
      | .error _ => do
        let r ← walkLoop f fsize sector_size st rest
        Except.ok (r.1, r.2 + 1)
      | .ok tag => do
        let st9 ← dispatchTag sector_size st tag
          (readBytes f fsize (sector * sector_size) 512)
        let br ← breakCheck st9
        if br then
          Except.ok (st9, 1)
        else do
          let r ← walkLoop f fsize sector_size st9 rest
          Except.ok (r.1, r.2 + 1)) := rfl

/-- The loop-ending test returns `ok true` exactly on states with all three
required descriptors captured. -/
theorem breakCheck_ok_true_iff (st : WalkState) :
    breakCheck st = .ok true ↔ threeB st = true := by
  unfold breakCheck threeB
  rcases hl : st.lvd with _ | l
  · simp
  · rcases hp : st.pd with _ | p
    · simp
    · simp

/-- Whenever the loop-ending test evaluates without raising `NameError`,
the state satisfies the invariant "an LVD capture implies a PD capture". -/
theorem breakCheck_ok_inv (st : WalkState) (br : Bool) :
    breakCheck st = .ok br → (st.lvd.isSome = true → st.pd.isSome = true) := by
  unfold breakCheck
  rcases hl : st.lvd with _ | l
  · simp
  · rcases hp : st.pd with _ | p
    · simp
    · simp

/-- The post-loop check succeeds exactly on states with all three required
descriptors captured. -/
theorem finalCheck_ok_iff (st : WalkState) :
    finalCheck st = .ok () ↔ threeB st = true := by
  unfold finalCheck threeB
  rcases hl : st.lvd with _ | l
  · simp
  · rcases hp : st.pd with _ | p
    · simp
    · rcases ht : st.td with _ | t
      · simp
      · simp

/-- Every successful pass through the sector loop preserves the invariant
"an LVD capture implies a PD capture": an iteration that captures an LVD
while the partition descriptor is still unbound raises `NameError` in the
loop-ending test instead of returning. -/
theorem walkLoop_inv (f : Nat → Nat) (fsize sector_size : Nat) :
    ∀ (l : List Nat) (st : WalkState) (r : WalkState × Nat),
      walkLoop f fsize sector_size st l = .ok r →
      (st.lvd.isSome = true → st.pd.isSome = true) →
      (r.1.lvd.isSome = true → r.1.pd.isSome = true) := by
  intro l
  induction l with
  | nil =>
    intro st r h hinv
    simp [walkLoop] at h
    rw [← h]
    exact hinv
  | cons sector rest ih =>
    intro st r h hinv
    rw [walkLoop_cons] at h
    rcases hdt : descriptorTag (readBytes f fsize (sector * sector_size) 16) 0 with e | tag <;>
      rw [hdt] at h <;> simp only [] at h
    · rcases hrec : walkLoop f fsize sector_size st rest with e9 | r9 <;>
        rw [hrec] at h <;> simp [Except.map] at h
      have := ih st r9 hrec hinv
      subst h
      exact this
    · rcases hdisp : dispatchTag sector_size st tag
        (readBytes f fsize (sector * sector_size) 512) with e9 | st9 <;>
        rw [hdisp] at h <;> simp only [exceptOkBind, exceptErrorBind] at h
      · exact absurd h (by simp)
      · rcases hbr : breakCheck st9 with e9 | br <;>
          rw [hbr] at h <;> simp only [exceptOkBind, exceptErrorBind] at h
        · exact absurd h (by simp)
        · have hinv9 := breakCheck_ok_inv st9 br hbr
          rcases br with _ | _
          · simp only [Bool.false_eq_true, if_false] at h
            rcases hrec : walkLoop f fsize sector_size st9 rest with e8 | r8 <;>
              rw [hrec] at h <;> simp [Except.map] at h
            have := ih st9 r8 hrec hinv9
            subst h
            exact this
          · simp only [if_true] at h
            simp at h
            subst h
            exact hinv9

/-- If the sector loop returns after fewer iterations than there were
sectors, the loop-ending condition held: all three required descriptors
were captured. -/
theorem walkLoop_early (f : Nat → Nat) (fsize sector_size : Nat) :
    ∀ (l : List Nat) (st st9 : WalkState) (k : Nat),
      walkLoop f fsize sector_size st l = .ok (st9, k) →
      k < l.length → threeB st9 = true := by
  intro l
  induction l with
  | nil =>
    intro st st9 k h hk
    simp at hk
  | cons sector rest ih =>
    intro st st9 k h hk
    rw [walkLoop_cons] at h
    rcases hdt : descriptorTag (readBytes f fsize (sector * sector_size) 16) 0 with e | tag <;>
      rw [hdt] at h <;> simp only [] at h
    · rcases hrec : walkLoop f fsize sector_size st rest with e9 | r9 <;>
        rw [hrec] at h <;> simp at h
      have hk9 : r9.2 < rest.length := by
        simp at hk
        omega
      have := ih st r9.1 r9.2 hrec hk9
      rw [← h.1]
      exact this
    · rcases hdisp : dispatchTag sector_size st tag
        (readBytes f fsize (sector * sector_size) 512) with e9 | st8 <;>
        rw [hdisp] at h <;> simp only [exceptOkBind, exceptErrorBind] at h
      · exact absurd h (by simp)
      · rcases hbr : breakCheck st8 with e9 | br <;>
          rw [hbr] at h <;> simp only [exceptOkBind, exceptErrorBind] at h
        · exact absurd h (by simp)
        · rcases br with _ | _
          · simp only [Bool.false_eq_true, if_false] at h
            rcases hrec : walkLoop f fsize sector_size st8 rest with e8 | r8 <;>
              rw [hrec] at h <;> simp at h
            have hk8 : r8.2 < rest.length := by
              simp at hk
              omega
            have := ih st8 r8.1 r8.2 hrec hk8
            rw [← h.1]
            exact this
          · simp only [if_true] at h
            simp at h
            rw [← h.1]
            exact (breakCheck_ok_true_iff st8).mp hbr

/-- A synthetic 2048-byte-sector image whose descriptor sequence at sectors
254, 255, 256 is: a PartitionDescriptor (partition number 0, starting
location 100, length 50), an OSTA-compliant LogicalVolumeDescriptor
(logical block size 2048, one type-1 partition map for partition number 0)
and a TerminatingDescriptor — and no PrimaryVolumeDescriptor anywhere. -/
def exImg2 : Nat → Nat :=
  imageOf ([(520192, 5), (520194, 3), (520196, 8), (520380, 100), (520384, 50),
    (522240, 6), (522242, 3), (522244, 9), (522369, 8), (522504, 6),
    (522508, 1), (522680, 1), (522681, 6),
    (524288, 8), (524290, 3), (524292, 11)] ++
    (List.range 19).map (fun i => (522457 + i, byteAt ostaMarker i)))

/-- A synthetic image holding two valid PrimaryVolumeDescriptors: one at
sector 100 with volume descriptor sequence number 1 and one at sector 101
with volume descriptor sequence number 2 (2048-byte sectors). -/
def exImg3 : Nat → Nat :=
  imageOf [(204800, 1), (204802, 3), (204804, 4), (204816, 1),
    (206848, 1), (206850, 3), (206852, 4), (206864, 2)]

/-- True exactly when the walk (including its required-segments check)
succeeded while capturing no PrimaryVolumeDescriptor. -/
def walkOkNoPVD : Except UdfError (WalkState × Nat) → Bool
  | .ok (st, _) => st.desc.isNone
  | .error _ => false

/-- The loop-ending condition of a successful walk result. -/
def threeOfWalk : Except UdfError (WalkState × Nat) → Bool
  | .ok (st, _) => threeB st
  | .error _ => false

/-- A computation that is `ok` holds some value. -/
theorem except_isOk_exists {ε : Type u} {α : Type v} (x : Except ε α) :
    x.isOk = true → ∃ a, x = .ok a := by
  rcases x with e | a
  · simp [Except.isOk, Except.toBool]
  · exact fun _ => ⟨a, rfl⟩

/-- Claim C4 counterexample: on a walk whose sectors carry only a
PartitionDescriptor, a LogicalVolumeDescriptor and a TerminatingDescriptor
— no PrimaryVolumeDescriptor anywhere — the walk (including its
required-segments check) succeeds anyway, so capturing all four kinds is
not required and the early stop does not wait for a PVD. -/
theorem claim_C4_counterexample :
    walkOkNoPVD (walkVDS exImg2 526336 2048 254) = true := by
  decide

/-- Claim C4 (amended): the walk's checks require only the three kinds
PartitionDescriptor, LogicalVolumeDescriptor and TerminatingDescriptor —
the PrimaryVolumeDescriptor is parsed but never required: (1) a walk that
passes the required-segments check has captured those three; (2) the loop
stops before exhausting its sector range only when those three are
captured; (3) it breaks the moment an iteration ends with the three
captured; (4) a walk from the initial state that returns from its loop
without the three captured fails with the required-descriptors error. -/
theorem claim_C4_required_descriptors :
    (∀ (f : Nat → Nat) (fsize sector_size pvd_sector : Nat) (r : WalkState × Nat),
      walkVDS f fsize sector_size pvd_sector = .ok r → threeB r.1 = true) ∧
    (∀ (f : Nat → Nat) (fsize sector_size : Nat) (st : WalkState) (l : List Nat)
      (st9 : WalkState) (k : Nat),
      walkLoop f fsize sector_size st l = .ok (st9, k) → k < l.length →
      threeB st9 = true) ∧
    (∀ (f : Nat → Nat) (fsize sector_size : Nat) (st : WalkState) (sector : Nat)
      (rest : List Nat) (tag : DescriptorTagData) (st9 : WalkState),
      descriptorTag (readBytes f fsize (sector * sector_size) 16) 0 = .ok tag →
      dispatchTag sector_size st tag (readBytes f fsize (sector * sector_size) 512) = .ok st9 →
      threeB st9 = true →
      walkLoop f fsize sector_size st (sector :: rest) = .ok (st9, 1)) ∧
    (∀ (f : Nat → Nat) (fsize sector_size : Nat) (l : List Nat) (st9 : WalkState) (k : Nat),
      walkLoop f fsize sector_size initWalkState l = .ok (st9, k) →
      threeB st9 = false →
      finalCheck st9 = .error .requiredDescriptorsMissing) := by
  refine ⟨?_, ?_, ?_, ?_⟩
  · intro f fsize sector_size pvd_sector r h
    unfold walkVDS at h
    rcases hw : walkLoop f fsize sector_size initWalkState
      (List.range' pvd_sector (257 - pvd_sector)) with e | r9 <;>
      rw [hw] at h <;> simp only [exceptOkBind, exceptErrorBind] at h
    · exact absurd h (by simp)
    · rcases hf : finalCheck r9.1 with e | u <;>
        rw [hf] at h <;> simp only [exceptOkBind, exceptErrorBind] at h
      · exact absurd h (by simp)
      · simp at h
        rw [← h]
        exact (finalCheck_ok_iff r9.1).mp hf
  · intro f fsize sector_size st l st9 k h hk
    exact walkLoop_early f fsize sector_size l st st9 k h hk
  · intro f fsize sector_size st sector rest tag st9 hdt hdisp hthree
    rw [walkLoop_cons, hdt]
    simp only []
    rw [hdisp]
    simp only [exceptOkBind]
    rw [(breakCheck_ok_true_iff st9).mpr hthree]
    simp
  · intro f fsize sector_size l st9 k h hthree
    have hinv := walkLoop_inv f fsize sector_size l initWalkState (st9, k) h
      (by simp [initWalkState])
    unfold finalCheck
    unfold threeB at hthree
    rcases hl : st9.lvd with _ | v
    · rfl
    · have hpd : st9.pd.isSome = true := hinv (by simp [hl])
      rcases hp : st9.pd with _ | p
      · rw [hp] at hpd
        simp at hpd
      · have htd : st9.td.isSome = false := by
          rw [hl, hp] at hthree
          simpa using hthree
        rw [htd]
        rfl

/-- Witness for C4: the walk on the PD/LVD/TD image ends with the three
required kinds captured, and a loop that returns the initial state (an
empty sector range) fails the final check with the required-descriptors
error. -/
theorem claim_C4_witness :
    threeOfWalk (walkVDS exImg2 526336 2048 254) = true ∧
    finalCheck initWalkState = .error .requiredDescriptorsMissing := by
  constructor
  · have hOk : (walkVDS exImg2 526336 2048 254).isOk = true := by decide
    obtain ⟨r, hr⟩ := except_isOk_exists _ hOk
    have := claim_C4_required_descriptors.1 exImg2 526336 2048 254 r hr
    rw [hr]
    unfold threeOfWalk
    rw [show r = (r.1, r.2) from rfl] at hr ⊢
    simpa using this
  · exact claim_C4_required_descriptors.2.2.2 exImg2 526336 2048 [] initWalkState 0 rfl rfl

/-- The volume descriptor sequence number of the PrimaryVolumeDescriptor
captured by a successful walk result. -/
def walkDescVdsn : Except UdfError (WalkState × Nat) → Option Nat
  | .ok (st, _) => st.desc.map (fun d => d.volume_descriptor_sequence_number)
  | .error _ => none

/-- Claim C5 (confirmed): each dispatch branch stores the newly parsed
descriptor over whatever the state held before — later occurrences of a
kind supersede earlier ones — and no other branch touches that kind's
slot; concretely, walking two PrimaryVolumeDescriptor sectors (sequence
numbers 1 then 2) retains the one with sequence number 2, while the first
sector of that walk parses to sequence number 1. -/
theorem claim_C5_supersession :
    (∀ (sector_size : Nat) (st : WalkState) (tag : DescriptorTagData)
      (buffer : List Nat) (d : PVDData),
      tag.tag_identifier = 1 → primaryVolumeDescriptor buffer = .ok d →
      dispatchTag sector_size st tag buffer = .ok { st with desc := some d }) ∧
    (∀ (sector_size : Nat) (st : WalkState) (tag : DescriptorTagData)
      (buffer : List Nat) (d : LVDData),
      tag.tag_identifier = 6 → logicalVolumeDescriptor buffer = .ok d →
      dispatchTag sector_size st tag buffer = .ok { st with lvd := some d }) ∧
    (∀ (sector_size : Nat) (st : WalkState) (tag : DescriptorTagData)
      (buffer : List Nat) (d : TDData),
      tag.tag_identifier = 8 → terminatingDescriptor buffer = .ok d →
      dispatchTag sector_size st tag buffer = .ok { st with td := some d }) ∧
    (∀ (sector_size : Nat) (st : WalkState) (tag : DescriptorTagData)
      (buffer : List Nat) (d : PDData) (st9 : WalkState),
      tag.tag_identifier = 5 → partitionDescriptor buffer = .ok d →
      dispatchTag sector_size st tag buffer = .ok st9 → st9.pd = some d) ∧
    (∀ (sector_size : Nat) (st : WalkState) (tag : DescriptorTagData)
      (buffer : List Nat) (st9 : WalkState),
      dispatchTag sector_size st tag buffer = .ok st9 →
      (tag.tag_identifier ≠ 1 → st9.desc = st.desc) ∧
      (tag.tag_identifier ≠ 6 → st9.lvd = st.lvd) ∧
      (tag.tag_identifier ≠ 8 → st9.td = st.td) ∧
      (tag.tag_identifier ≠ 5 → st9.pd = st.pd)) ∧
    (walkDescVdsn (walkLoop exImg3 526336 2048 initWalkState [100, 101]) = some 2) ∧
    ((primaryVolumeDescriptor (readBytes exImg3 526336 (100 * 2048) 512)).map
      (fun d => d.volume_descriptor_sequence_number) = .ok 1) := by
  refine ⟨?_, ?_, ?_, ?_, ?_, by decide, rfl⟩
  · intro sector_size st tag buffer d h1 hp
    unfold dispatchTag
    simp [h1, hp]
  · intro sector_size st tag buffer d h6 hp
    unfold dispatchTag
    simp [h6, hp]
  · intro sector_size st tag buffer d h8 hp
    unfold dispatchTag
    simp [h8, hp]
  · intro sector_size st tag buffer d st9 h5 hp hdisp
    unfold dispatchTag at hdisp
    simp [h5, hp] at hdisp
    rw [← hdisp]
  · intro sector_size st tag buffer st9 hdisp
    unfold dispatchTag at hdisp
    by_cases h1 : tag.tag_identifier = 1
    · simp only [h1, if_true] at hdisp
      rcases hp : primaryVolumeDescriptor buffer with e | d <;> rw [hp] at hdisp <;>
        simp at hdisp
      rw [← hdisp]
      simp [h1]
    · by_cases h2 : tag.tag_identifier = 2
      · simp only [h1, if_false, h2, if_true] at hdisp
        rcases hp : anchorVolumeDescriptorPointer buffer with e | d <;> rw [hp] at hdisp <;>
          simp at hdisp
        rw [← hdisp]
        simp
      · by_cases h5 : tag.tag_identifier = 5
        · simp only [h1, h2, if_false, h5, if_true] at hdisp
          rcases hp : partitionDescriptor buffer with e | d <;> rw [hp] at hdisp <;>
            simp at hdisp
          rw [← hdisp]
          simp [h5]
        · by_cases h6 : tag.tag_identifier = 6
          · simp only [h1, h2, h5, if_false, h6, if_true] at hdisp
            rcases hp : logicalVolumeDescriptor buffer with e | d <;> rw [hp] at hdisp <;>
              simp at hdisp
            rw [← hdisp]
            simp [h6]
          · by_cases h8 : tag.tag_identifier = 8
            · simp only [h1, h2, h5, h6, if_false, h8, if_true] at hdisp
              rcases hp : terminatingDescriptor buffer with e | d <;> rw [hp] at hdisp <;>
                simp at hdisp
              rw [← hdisp]
              simp [h8]
            · simp only [h1, h2, h5, h6, h8, if_false] at hdisp
              simp at hdisp
              rw [← hdisp]
              simp

/-- A descriptor tag carrying the TerminatingDescriptor identifier. -/
def tdTagEx : DescriptorTagData :=
  { tag_identifier := 8, descriptor_version := 3, tag_check_sum := 11,
    reserved := 0, tag_serial_number := 0, descriptor_crc := 0,
    descriptor_crc_length := 0, tag_location := 0 }

/-- Witness for C5: dispatching a TerminatingDescriptor sector stores the
fresh instance in the state's terminating-descriptor slot. -/
theorem claim_C5_witness :
    dispatchTag 2048 initWalkState tdTagEx (List.replicate 512 0) =
      .ok { initWalkState with td := some {} } :=
  claim_C5_supersession.2.2.1 2048 initWalkState tdTagEx (List.replicate 512 0) {} rfl rfl

/-- Unfolding equation for `buildLogicalPartitions` on a nonempty map
list. -/
theorem buildLogicalPartitions_cons (lvd : LVDData)
    (phys : List (Nat × PhysicalPartitionData)) (m : T1MapData) (rest : List T1MapData) :
    buildLogicalPartitions lvd phys (m :: rest) =
      (match phys.lookup m.partition_number with
      | none => .error (.keyError m.partition_number)
      | some physical_Partition => do
        let lps ← buildLogicalPartitions lvd phys rest
        .ok ({ logical_volume_descriptor := lvd
               partition_map := m
               physical_partition := physical_Partition } :: lps)) := rfl

/-- The physical partition a successful walk stored under partition
number 0. -/
def walkPhysLookup0 : Except UdfError (WalkState × Nat) → Option PhysicalPartitionData
  | .ok (st, _) => st.physical_partitions.lookup 0
  | .error _ => none

/-- Claim C6 (confirmed): a PartitionDescriptor sector stores, under its
partition number, a physical partition with byte start
`partition_starting_location * sector_size` and byte length
`partition_length * sector_size`; resolving a type-1 map whose partition
number has no stored physical partition fails with the key error, and
resolving one that has yields a logical partition carrying exactly that
physical partition; the walk of the image with partition number 0,
starting location 100 and length 50 at sector size 2048 stores byte start
204800 and byte length 102400. -/
theorem claim_C6_partition_resolution :
    (∀ (sector_size : Nat) (st : WalkState) (tag : DescriptorTagData)
      (buffer : List Nat) (d : PDData),
      tag.tag_identifier = 5 → partitionDescriptor buffer = .ok d →
      dispatchTag sector_size st tag buffer = .ok { st with
        pd := some d
        physical_partitions := (d.partition_number,
          { start := d.partition_starting_location * sector_size
            size := d.partition_length * sector_size }) :: st.physical_partitions }) ∧
    (∀ (lvd : LVDData) (phys : List (Nat × PhysicalPartitionData))
      (m : T1MapData) (rest : List T1MapData),
      phys.lookup m.partition_number = none →
      buildLogicalPartitions lvd phys (m :: rest) = .error (.keyError m.partition_number)) ∧
    (∀ (lvd : LVDData) (phys : List (Nat × PhysicalPartitionData))
      (m : T1MapData) (rest : List T1MapData) (pp : PhysicalPartitionData),
      phys.lookup m.partition_number = some pp →
      buildLogicalPartitions lvd phys (m :: rest) =
        (buildLogicalPartitions lvd phys rest).map
          (fun lps => { logical_volume_descriptor := lvd
                        partition_map := m
                        physical_partition := pp } :: lps)) ∧
    (walkPhysLookup0 (walkVDS exImg2 526336 2048 254) =
      some { start := 204800, size := 102400 }) := by
  refine ⟨?_, ?_, ?_, by decide⟩
  · intro sector_size st tag buffer d h5 hp
    unfold dispatchTag
    simp [h5, hp]
  · intro lvd phys m rest hnone
    rw [buildLogicalPartitions_cons, hnone]
  · intro lvd phys m rest pp hsome
    rw [buildLogicalPartitions_cons, hsome]
    rcases hrec : buildLogicalPartitions lvd phys rest with e | lps <;> simp [Except.map]

/-- An entity identifier value used to assemble witness inputs. -/
def exDomainID : EntityIDData :=
  { entity_id_type := 1, flags := 0, identifier := [], identifier_suffix := [] }

/-- An implementation entity identifier value used to assemble witness
inputs. -/
def exImplID : EntityIDData :=
  { entity_id_type := 3, flags := 0, identifier := [], identifier_suffix := [] }

/-- A descriptor tag value with the LogicalVolumeDescriptor identifier. -/
def exLVDTag : DescriptorTagData :=
  { tag_identifier := 6, descriptor_version := 3, tag_check_sum := 9,
    reserved := 0, tag_serial_number := 0, descriptor_crc := 0,
    descriptor_crc_length := 0, tag_location := 0 }

/-- A LogicalVolumeDescriptor value (logical block size 2048, one type-1
partition map) used as input to the resolution steps under test. -/
def exLVDValue : LVDData :=
  { descriptor_tag := exLVDTag
    volume_descriptor_sequence_number := 0
    logical_volume_identifier := []
    logical_block_size := 2048
    domain_identifier := exDomainID
    logical_volume_contents_use := []
    map_table_length := 6
    number_of_partition_maps := 1
    implementation_identifier := exImplID
    integrity_sequence_extent := { extent_length := 0, extent_location := 0 }
    raw_partition_maps := [1, 6, 0, 0, 0, 0] }

/-- A type-1 partition map value referencing partition number 7. -/
def exT1Map : T1MapData :=
  { partition_map_type := 1, partition_map_length := 6,
    volume_sequence_number := 0, partition_number := 7 }

/-- Witness for C6: resolving a type-1 map against an empty physical
partition table fails with the key error for its partition number. -/
theorem claim_C6_witness :
    buildLogicalPartitions exLVDValue [] [exT1Map] = .error (.keyError 7) :=
  claim_C6_partition_resolution.2.1 exLVDValue [] exT1Map [] rfl

/-- The physical partition of the spec's worked example: byte start
204800, byte length 102400. -/
def exPhysical : PhysicalPartitionData :=
  { start := 204800, size := 102400 }

/-- A type-1 partition map value referencing partition number 0. -/
def exT1Map0 : T1MapData :=
  { partition_map_type := 1, partition_map_length := 6,
    volume_sequence_number := 0, partition_number := 0 }

/-- The resolved logical partition of the worked example: the 2048-byte
logical-block-size volume, the type-1 map for partition 0, and the
physical partition starting at byte 204800. -/
def exPartition : Type1PartitionData :=
  { logical_volume_descriptor := exLVDValue
    partition_map := exT1Map0
    physical_partition := exPhysical }

/-- The long allocation descriptor of the worked example: extent length
2048, block number 10, partition reference 0. -/
def exLongAD : LongADData :=
  { extent_length := 2048
    extent_location := { logical_block_number := 10, partition_reference_number := 0 }
    implementation_use := [0, 0, 0, 0, 0, 0] }

/-- Claim C3 (refuted — code bug): on the spec's worked example the extent
resolver is supposed to return absolute byte offset
`byte_start + block_number * logical_block_size = 204800 + 10 * 2048 =
225280` with length 2048, but `read_extent` computes its local `start`
without adding the physical partition's byte start (10 * 2048 = 20480) and
then dereferences the nonexistent `content` attribute (with an undefined
`pos` besides), raising `AttributeError` instead of returning anything. -/
theorem claim_C3_extent_resolver_bug :
    read_extent [exPartition] exLongAD = .error .attributeErrorContent ∧
    exPartition.physical_partition.start +
      exLongAD.extent_location.logical_block_number * exPartition.logical_block_size = 225280 ∧
    exLongAD.extent_location.logical_block_number * exPartition.logical_block_size = 20480 ∧
    exLongAD.extent_length = 2048 := by
  refine ⟨rfl, by decide, by decide, by decide⟩

/-- An LVDData value whose sole raw partition-map record has type byte 2
(a type-2 partition map of declared length 64). -/
def lvdT2 : LVDData :=
  { descriptor_tag := exLVDTag
    volume_descriptor_sequence_number := 0
    logical_volume_identifier := []
    logical_block_size := 2048
    domain_identifier := exDomainID
    logical_volume_contents_use := []
    map_table_length := 64
    number_of_partition_maps := 1
    implementation_identifier := exImplID
    integrity_sequence_extent := { extent_length := 0, extent_location := 0 }
    raw_partition_maps := [2, 64, 0, 0, 0, 0] }

/-- Claim C7 counterexample: decoding the partition maps of a logical
volume whose sole map record has type byte 2 fails immediately — at decode
time — with the unknown-map-type error; no Type2 map value is ever
produced, so the claim's "a type-2 map is rejected only when subsequently
dereferenced" is false of the code. -/
theorem claim_C7_counterexample :
    getPartitionMaps lvdT2 = .error (.unknownPartitionMapType 2) := rfl

/-- Claim C7 (amended): partition-map decoding reads a 1-byte map type at
the cursor for each record; a type-1 record consumes 6 bytes and prepends
its parse to the remaining records' decode; any other type byte — 2
included — fails at decode time with the unknown-map-type error (so a
type-2 map is never silently misinterpreted, and the dereference-time
unsupported-type path is unreachable). -/
theorem claim_C7_partition_map_decoding :
    (∀ (buffer : List Nat) (part_start n : Nat),
      part_start < buffer.length →
      to_uint8 (byteAt buffer part_start) ≠ 1 →
      getPartitionMapsAux buffer part_start (n + 1) =
        .error (.unknownPartitionMapType (to_uint8 (byteAt buffer part_start)))) ∧
    (∀ (buffer : List Nat) (part_start n : Nat) (m : T1MapData),
      to_uint8 (byteAt buffer part_start) = 1 →
      type1PartitionMap buffer part_start = .ok m →
      getPartitionMapsAux buffer part_start (n + 1) =
        (getPartitionMapsAux buffer (part_start + 6) n).map (fun rest => m :: rest)) ∧
    (∀ lvd : LVDData, getPartitionMaps lvd =
      getPartitionMapsAux lvd.raw_partition_maps 0 lvd.number_of_partition_maps) := by
  have hsucc : ∀ (buffer : List Nat) (part_start n : Nat),
      getPartitionMapsAux buffer part_start (n + 1) =
        (if part_start < buffer.length then
          if to_uint8 (byteAt buffer part_start) = 1 then do
            let m ← type1PartitionMap buffer part_start
            let rest ← getPartitionMapsAux buffer (part_start + 6) n
            Except.ok (m :: rest)
          else .error (.unknownPartitionMapType (to_uint8 (byteAt buffer part_start)))
        else .error .indexError) := fun _ _ _ => rfl
  refine ⟨?_, ?_, fun lvd => rfl⟩
  · intro buffer part_start n hlt hne
    rw [hsucc]
    simp [hlt, hne]
  · intro buffer part_start n m h1 hp
    have hlt : part_start < buffer.length := by
      by_contra hge
      unfold type1PartitionMap assertSize at hp
      have h6 : buffer.length - part_start < 6 := by omega
      simp [h6] at hp
    rw [hsucc]
    simp only [hlt, if_true, h1, hp, exceptOkBind]
    rcases hrec : getPartitionMapsAux buffer (part_start + 6) n with e | rest <;>
      simp [Except.map]

/-- Witness for C7: a record list whose first type byte is 2 is rejected
at decode time with the unknown-map-type error. -/
theorem claim_C7_witness :
    getPartitionMapsAux [2, 64, 0, 0, 0, 0] 0 3 = .error (.unknownPartitionMapType 2) :=
  claim_C7_partition_map_decoding.1 [2, 64, 0, 0, 0, 0] 0 2 (by decide) (by decide)

/-- True exactly on the silent `None` return. -/
def isSilentNone : GoOutcome → Bool
  | .silentNone => true
  | _ => false

/-- True exactly on a normal data-carrying return. -/
def isFinishedOutcome : GoOutcome → Bool
  | .finished _ => true
  | _ => false

/-- True unless the outcome is an `exit` with a code other than 1. -/
def exitsOnlyWithOne : GoOutcome → Bool
  | .exited code => decide (code = 1)
  | _ => true

/-- `read_extent` never succeeds: either the partition reference is out of
range (`IndexError`) or the `content` attribute access raises
`AttributeError`. -/
theorem read_extent_isOk_false (logical_partitions : List Type1PartitionData)
    (extent : LongADData) :
    (read_extent logical_partitions extent).isOk = false := by
  unfold read_extent
  rcases hx : logical_partitions.get? extent.extent_location.partition_reference_number with
    _ | lp <;> simp [Except.isOk, Except.toBool]

/-- All image contents zero. -/
def zeroImg : Nat → Nat := fun _ => 0

/-- Claim C9 counterexample: with an empty image (size 0 at sector size
2048), the orchestration returns silently — it produces no metadata result
and terminates with neither an error nor an exit, contradicting "it never
ends silently with neither a result nor an error". -/
theorem claim_C9_counterexample :
    goRun zeroImg 0 2048 = GoOutcome.silentNone := rfl

/-- Claim C9 (amended): the orchestration never produces a metadata
result; whenever it does not raise an error — propagated verbatim from the
failing step by construction — it either returns silently with no result
(exactly when `file_size < 257 * sector_size`, and in no other case, since
`read_extent` never succeeds) or calls `exit(1)` (the only exit code ever
used, issued when the tag at sector 256 validates but is not an
AnchorVolumeDescriptorPointer, instead of a specific unexpected-tag
error). -/
theorem claim_C9_orchestrator_termination :
    (∀ (f : Nat → Nat) (file_size sector_size : Nat),
      isSilentNone (goRun f file_size sector_size) =
        decide (file_size < 257 * sector_size)) ∧
    (∀ (f : Nat → Nat) (file_size sector_size : Nat),
      isFinishedOutcome (goRun f file_size sector_size) = false) ∧
    (∀ (f : Nat → Nat) (file_size sector_size : Nat),
      exitsOnlyWithOne (goRun f file_size sector_size) = true) := by
  have master : ∀ (f : Nat → Nat) (file_size sector_size : Nat),
      isSilentNone (goRun f file_size sector_size) =
        decide (file_size < 257 * sector_size) ∧
      isFinishedOutcome (goRun f file_size sector_size) = false ∧
      exitsOnlyWithOne (goRun f file_size sector_size) = true := by
    intro f file_size sector_size
    unfold goRun
    by_cases hsz : file_size < 257 * sector_size
    · simp [hsz, isSilentNone, isFinishedOutcome, exitsOnlyWithOne]
    · simp only [hsz, if_false, ite_false]
      have hd : decide (file_size < 257 * sector_size) = false := by
        simp [hsz]
      rcases hdt : descriptorTag
        (sliceAt (readBytes f file_size (256 * sector_size) 512) 0 16) 0 with e | tag
      · simp [hdt, isSilentNone, isFinishedOutcome, exitsOnlyWithOne, hd]
      · by_cases hid : tag.tag_identifier ≠ 2
        · simp [hdt, hid, isSilentNone, isFinishedOutcome, exitsOnlyWithOne, hd]
        · rcases havdp : anchorVolumeDescriptorPointer
            (readBytes f file_size (256 * sector_size) 512) with e | avdp
          · simp [hdt, hid, havdp, isSilentNone, isFinishedOutcome, exitsOnlyWithOne, hd]
          · rcases hw : walkVDS f file_size sector_size
              avdp.main_volume_descriptor_sequence_extent.extent_location with e | r
            · simp [hdt, hid, havdp, hw, isSilentNone, isFinishedOutcome,
                exitsOnlyWithOne, hd]
            · obtain ⟨st, k⟩ := r
              rcases hlvd : st.lvd with _ | lvd
              · simp [hdt, hid, havdp, hw, hlvd, isSilentNone, isFinishedOutcome,
                  exitsOnlyWithOne, hd]
              · rcases hmaps : getPartitionMaps lvd with e | maps
                · simp [hdt, hid, havdp, hw, hlvd, hmaps, isSilentNone,
                    isFinishedOutcome, exitsOnlyWithOne, hd]
                · rcases hbuild : buildLogicalPartitions lvd st.physical_partitions maps with
                    e | logical_partitions
                  · simp [hdt, hid, havdp, hw, hlvd, hmaps, hbuild, isSilentNone,
                      isFinishedOutcome, exitsOnlyWithOne, hd]
                  · rcases hloc : fileSetDescriptorLocation lvd with e | extent
                    · simp [hdt, hid, havdp, hw, hlvd, hmaps, hbuild, hloc,
                        isSilentNone, isFinishedOutcome, exitsOnlyWithOne, hd]
                    · rcases hre : read_extent logical_partitions extent with e | buf
                      · simp [hdt, hid, havdp, hw, hlvd, hmaps, hbuild, hloc, hre,
                          isSilentNone, isFinishedOutcome, exitsOnlyWithOne, hd]
                      · have hcontra := read_extent_isOk_false logical_partitions extent
                        rw [hre] at hcontra
                        simp [Except.isOk, Except.toBool] at hcontra
  exact ⟨fun f fs ss => (master f fs ss).1,
    fun f fs ss => (master f fs ss).2.1,
    fun f fs ss => (master f fs ss).2.2⟩
